import Mathlib

/-!
WeatherCard: a shallow embedding of `src/Components/WeatherCard.jsx`.

The component keeps four `useState` cells, runs two effects (the weather fetch,
keyed on `city`, and the one-shot geolocation lookup) and one form handler.

Modelling conventions.

* `sunrise` and `sunset` are whole UNIX seconds (`Seconds`): integers `n` with
  `|n| <= 2^53 - 14400`.  On these the JavaScript numbers `n`, `n + 4 * 60 * 60` and
  `n - 2 * 60 * 60` are integers below `2^53` in size, so the double additions of the
  source are exact and equal the integer additions of the model.
* The clock value `new Date().getTime() / 1000` is a finite double, hence a rational
  number (`currentTime`); comparing it with an integer threshold involves no rounding.
* An `await axios.get(...)` is split at the `await`: the request is recorded when
  it is issued and the continuation takes the settled result (`Except`) as an
  argument.  The wall clock read by the continuation is an argument too.
* `console.error` and `console.warn` append to a console trace.
-/

namespace WeatherCard

/-! ## Payloads -/

/-- The `main` object of a weather payload. -/
structure MainBlock where
  temp : ℚ
  temp_max : ℚ
  temp_min : ℚ
  pressure : ℚ
  deriving DecidableEq

/-- The `wind` object of a weather payload. -/
structure Wind where
  speed : ℚ
  deriving DecidableEq

/-- One entry of the `weather` array of a weather payload. -/
structure Condition where
  icon : String
  main : String
  description : String
  deriving DecidableEq

/-- A timestamp in whole UNIX seconds, as the weather service sends it: an integer
`val` with `|val| <= 2^53 - 14400 = 9007199254726592`, the range in which `val`,
`val + 14400` and `val - 7200` are exactly representable JavaScript numbers. -/
structure Seconds where
  val : ℤ
  lower : -9007199254726592 ≤ val
  upper : val ≤ 9007199254726592
  deriving DecidableEq

/-- The `sys` object of a weather payload: sunrise and sunset in UNIX seconds. -/
structure Sys where
  sunrise : Seconds
  sunset : Seconds
  deriving DecidableEq

/-- The body of a successful weather response (`response.data`), with the fields the
component reads. -/
structure WeatherData where
  name : String
  main : MainBlock
  wind : Wind
  weather : List Condition
  sys : Sys
  deriving DecidableEq

/-- The body of a successful geolocation response; `city` is `none` when the field is
absent (`undefined` or `null`). -/
structure GeoData where
  city : Option String
  deriving DecidableEq

/-- The value a rejected request is caught with. -/
structure AxiosError where
  message : String
  deriving DecidableEq

/-! ## Component state -/

/-- The four `useState` cells of `WeatherCard`. -/
structure WidgetState where
  weatherData : Option WeatherData
  city : String
  searchCity : String
  timeOfDay : String
  deriving DecidableEq

/-- The values handed to `useState` on the first render (lines 5 to 8). -/
def initialState : WidgetState :=
  { weatherData := none, city := "Pune", searchCity := "", timeOfDay := "morning" }

/-- State setter `setWeatherData`. -/
def setWeatherData (v : WeatherData) (s : WidgetState) : WidgetState :=
  { s with weatherData := some v }

/-- State setter `setCity`. -/
def setCity (v : String) (s : WidgetState) : WidgetState :=
  { s with city := v }

/-- State setter `setSearchCity`. -/
def setSearchCity (v : String) (s : WidgetState) : WidgetState :=
  { s with searchCity := v }

/-- State setter `setTimeOfDay`. -/
def setTimeOfDay (v : String) (s : WidgetState) : WidgetState :=
  { s with timeOfDay := v }

/-! ## The time-of-day classifier (lines 24 to 37) -/

/-- The function `determineTimeOfDay` of the source.  `currentTime` is the value of
`new Date().getTime() / 1000` read when the function runs; `sunrise` and `sunset` are
the whole seconds of the payload as numbers; the four branches are the four branches
of the source, in its order, each ending in `setTimeOfDay`. -/
def determineTimeOfDay (currentTime : ℚ) (data : WeatherData) (s : WidgetState) :
    WidgetState :=
  let sunrise : ℚ := data.sys.sunrise.val
  let sunset : ℚ := data.sys.sunset.val
  if currentTime ≥ sunrise ∧ currentTime < sunrise + 4 * 60 * 60 then
    setTimeOfDay "morning" s
  else if currentTime ≥ sunrise + 4 * 60 * 60 ∧ currentTime < sunset - 2 * 60 * 60 then
    setTimeOfDay "afternoon" s
  else if currentTime ≥ sunset - 2 * 60 * 60 ∧ currentTime < sunset then
    setTimeOfDay "evening" s
  else
    setTimeOfDay "night" s

/-- The bucket table of the specification, section 4.3, read top to bottom:
morning if `sunrise <= now < sunrise + 14400`, otherwise afternoon if
`sunrise + 14400 <= now < sunset - 7200`, otherwise evening if
`sunset - 7200 <= now < sunset`, otherwise night. -/
def bucketBySpec (sunrise sunset now : ℚ) : String :=
  if sunrise ≤ now ∧ now < sunrise + 14400 then "morning"
  else if sunrise + 14400 ≤ now ∧ now < sunset - 7200 then "afternoon"
  else if sunset - 7200 ≤ now ∧ now < sunset then "evening"
  else "night"

/-- The timestamp 1700000000 (14 November 2023, 22:13:20 UTC). -/
def t1700000000 : Seconds :=
  { val := 1700000000, lower := by decide, upper := by decide }

/-- The timestamp 1700003600, one hour after `t1700000000`. -/
def t1700003600 : Seconds :=
  { val := 1700003600, lower := by decide, upper := by decide }

/-- The timestamp 1700030000, eight hours and twenty minutes after `t1700000000`. -/
def t1700030000 : Seconds :=
  { val := 1700030000, lower := by decide, upper := by decide }

/-- A payload with the given sunrise and sunset and fixed remaining fields, used to
evaluate the code at concrete timestamps. -/
def payloadAt (sunrise sunset : Seconds) : WeatherData :=
  { name := "Pune"
    main := { temp := 27, temp_max := 29, temp_min := 25, pressure := 1012 }
    wind := { speed := 3 }
    weather := [{ icon := "01d", main := "Clear", description := "clear sky" }]
    sys := { sunrise := sunrise, sunset := sunset } }

/-! ## The search form (lines 57 to 63) -/

/-- The code points removed by `String.prototype.trim`: the ECMAScript `WhiteSpace`
and `LineTerminator` productions. -/
def isTrimChar (c : Char) : Bool :=
  let n := c.toNat
  n == 0x0009 || n == 0x000A || n == 0x000B || n == 0x000C || n == 0x000D ||
  n == 0x0020 || n == 0x00A0 || n == 0x1680 || (0x2000 ≤ n && n ≤ 0x200A) ||
  n == 0x2028 || n == 0x2029 || n == 0x202F || n == 0x205F || n == 0x3000 ||
  n == 0xFEFF

/-- The method `String.prototype.trim`: strips the leading and the trailing run of
trim characters. -/
def jsTrim (s : String) : String :=
  String.mk ((s.data.dropWhile isTrimChar).reverse.dropWhile isTrimChar).reverse

/-- The handler `handleSearch`.  `e.preventDefault()` touches no state cell; a string is
truthy exactly when it is not empty. -/
def handleSearch (s : WidgetState) : WidgetState :=
  if jsTrim s.searchCity ≠ "" then
    setSearchCity "" (setCity (jsTrim s.searchCity) s)
  else
    s

/-! ## Rendering (lines 65 to 141) -/

/-- The function `Math.round`: the nearest integer, halves rounded up. -/
def mathRound (x : ℚ) : ℤ :=
  ⌊x + 1 / 2⌋

/-- The data shown by the weather card and its search bar. -/
structure Card where
  searchValue : String
  backgroundPath : String
  textColor : String
  cityName : String
  date : String
  weatherIconPath : String
  iconAlt : String
  temp : ℤ
  description : String
  tempMax : ℤ
  speed : ℚ
  tempMin : ℤ
  pressure : ℚ
  deriving DecidableEq

/-- What one render returns: the loading placeholder or the search bar with the card. -/
inductive View where
  | loading
  | card (c : Card)
  deriving DecidableEq

/-- The render body of `WeatherCard` after the hooks.  `formattedDate` is the value of
`new Date().toLocaleDateString(...)`; destructuring `weatherData.weather[0]` throws a
`TypeError` when the array is empty. -/
def render (formattedDate : String) (s : WidgetState) : Except String View :=
  match s.weatherData with
  | none => .ok View.loading
  | some weatherData =>
    match weatherData.weather with
    | [] => .error "TypeError"
    | w :: _ =>
      .ok (View.card
        { searchValue := s.searchCity
          backgroundPath := "/backgrounds/" ++ s.timeOfDay ++ ".jpeg"
          textColor := if s.timeOfDay = "afternoon" then "#000" else "#FFF"
          cityName := weatherData.name
          date := formattedDate
          weatherIconPath := "http://openweathermap.org/img/wn/" ++ w.icon ++ "@2x.png"
          iconAlt := w.main
          temp := mathRound weatherData.main.temp
          description := w.description
          tempMax := mathRound weatherData.main.temp_max
          speed := weatherData.wind.speed
          tempMin := mathRound weatherData.main.temp_min
          pressure := weatherData.main.pressure })

/-! ## The two effects and the event loop -/

/-- One line written to the console. -/
inductive ConsoleEntry where
  | error (text : String) (cause : AxiosError)
  | warn (text : String)
  deriving DecidableEq

/-- The mounted component together with what it has asked of the outside world. -/
structure Runtime where
  /-- The four state cells. -/
  state : WidgetState
  /-- The value of the dependency array `[city]` when the fetch effect last ran;
  `none` before the first commit. -/
  cityDeps : Option String
  /-- The `cityName` argument of every `fetchWeather` call so far, oldest first. -/
  weatherRequests : List String
  /-- The number of geolocation requests sent so far. -/
  geoRequests : Nat
  /-- The console trace, oldest first. -/
  console : List ConsoleEntry
  deriving DecidableEq

/-- The continuation of `fetchWeather` after `await axios.get(URL)`: `response` is the
settled request (`.ok response.data` or the rejection) and `currentTime` the clock read
by `determineTimeOfDay`. -/
def fetchWeather (response : Except AxiosError WeatherData) (currentTime : ℚ)
    (r : Runtime) : Runtime :=
  match response with
  | .ok data =>
    { r with state := determineTimeOfDay currentTime data (setWeatherData data r.state) }
  | .error error =>
    { r with console := r.console ++ [ConsoleEntry.error "Error fetching weather data:" error] }

/-- The expression `value || fallback` on an optional string: an absent and an empty
string are falsy. -/
def orDefault (value : Option String) (fallback : String) : String :=
  match value with
  | some v => if v ≠ "" then v else fallback
  | none => fallback

/-- The continuation of `fetchInitialCity` after `await axios.get(...)`. -/
def fetchInitialCity (locationResponse : Except AxiosError GeoData) (r : Runtime) :
    Runtime :=
  match locationResponse with
  | .ok data =>
    { r with state := setCity (orDefault data.city "Pune") r.state }
  | .error _ =>
    { r with
      console := r.console ++
        [ConsoleEntry.warn "Failed to fetch user\x27s location, defaulting to Pune."] }

/-- The effect `useEffect(..., [city])` at a commit: it runs, and calls
`fetchWeather(city)`, when the component mounts and after every render in which `city`
differs from its value at the previous run; otherwise it is skipped. -/
def commitEffects (r : Runtime) : Runtime :=
  if r.cityDeps = some r.state.city then r
  else
    { r with
      cityDeps := some r.state.city
      weatherRequests := r.weatherRequests ++ [r.state.city] }

/-- The component right after mounting: first render on `initialState`, then both
effects run once, the fetch effect first. -/
def mount : Runtime :=
  { commitEffects
      { state := initialState, cityDeps := none, weatherRequests := [],
        geoRequests := 0, console := [] } with
    geoRequests := 1 }

/-- What can happen to a mounted component. -/
inductive Event where
  /-- The input fires `onChange` with the given text. -/
  | change (value : String)
  /-- The form fires `onSubmit`. -/
  | submit
  /-- The geolocation request settles. -/
  | locationSettled (locationResponse : Except AxiosError GeoData)
  /-- A weather request settles while the clock reads `currentTime`. -/
  | weatherSettled (response : Except AxiosError WeatherData) (currentTime : ℚ)

/-- One event: its handler runs, the component renders again and the effects whose
dependencies changed run. -/
def step (r : Runtime) (e : Event) : Runtime :=
  commitEffects
    (match e with
     | .change value => { r with state := setSearchCity value r.state }
     | .submit => { r with state := handleSearch r.state }
     | .locationSettled locationResponse => fetchInitialCity locationResponse r
     | .weatherSettled response currentTime => fetchWeather response currentTime r)

/-- A sequence of events, oldest first. -/
def run (events : List Event) (r : Runtime) : Runtime :=
  events.foldl step r

/-- The user types `text` into the search box and submits the form. -/
def searchFor (text : String) (r : Runtime) : Runtime :=
  step (step r (Event.change text)) Event.submit

/-- The component after mounting and receiving the weather of the default city: the
card and the search form are on screen. -/
def loadedPune : Runtime :=
  step mount (Event.weatherSettled (.ok (payloadAt t1700000000 t1700030000)) 1700010000)

/-! ## Shared lemmas -/

/-- The classifier writes the cell `timeOfDay` only. -/
theorem determineTimeOfDay_frame (currentTime : ℚ) (data : WeatherData) (s : WidgetState) :
    (determineTimeOfDay currentTime data s).weatherData = s.weatherData ∧
    (determineTimeOfDay currentTime data s).city = s.city ∧
    (determineTimeOfDay currentTime data s).searchCity = s.searchCity := by
  unfold determineTimeOfDay
  simp only [setTimeOfDay]
  split_ifs <;> exact ⟨rfl, rfl, rfl⟩

/-- The bucket written by the classifier, as a cascade over the thresholds 14400 and
7200. -/
theorem determineTimeOfDay_timeOfDay (currentTime : ℚ) (data : WeatherData)
    (s : WidgetState) :
    (determineTimeOfDay currentTime data s).timeOfDay =
      if (data.sys.sunrise.val : ℚ) ≤ currentTime ∧
          currentTime < (data.sys.sunrise.val : ℚ) + 14400 then "morning"
      else if (data.sys.sunrise.val : ℚ) + 14400 ≤ currentTime ∧
          currentTime < (data.sys.sunset.val : ℚ) - 7200 then "afternoon"
      else if (data.sys.sunset.val : ℚ) - 7200 ≤ currentTime ∧
          currentTime < (data.sys.sunset.val : ℚ) then "evening"
      else "night" := by
  have h4 : (4 * 60 * 60 : ℚ) = 14400 := by norm_num
  have h2 : (2 * 60 * 60 : ℚ) = 7200 := by norm_num
  unfold determineTimeOfDay
  simp only [setTimeOfDay, h4, h2, ge_iff_le]
  split_ifs <;> rfl

/-- The loaded component, evaluated: the snapshot is the Pune payload, the bucket is
morning, one weather request and one geolocation request have been sent. -/
theorem loadedPune_eq :
    loadedPune =
      { state :=
          { weatherData := some (payloadAt t1700000000 t1700030000)
            city := "Pune"
            searchCity := ""
            timeOfDay := "morning" }
        cityDeps := some "Pune"
        weatherRequests := ["Pune"]
        geoRequests := 1
        console := [] } := by
  have ht := determineTimeOfDay_timeOfDay 1700010000 (payloadAt t1700000000 t1700030000)
    (setWeatherData (payloadAt t1700000000 t1700030000) initialState)
  have hf := determineTimeOfDay_frame 1700010000 (payloadAt t1700000000 t1700030000)
    (setWeatherData (payloadAt t1700000000 t1700030000) initialState)
  have hm : (if ((payloadAt t1700000000 t1700030000).sys.sunrise.val : ℚ) ≤ (1700010000 : ℚ) ∧
      (1700010000 : ℚ) < ((payloadAt t1700000000 t1700030000).sys.sunrise.val : ℚ) + 14400 then
        "morning"
      else if ((payloadAt t1700000000 t1700030000).sys.sunrise.val : ℚ) + 14400 ≤ (1700010000 : ℚ) ∧
          (1700010000 : ℚ) < ((payloadAt t1700000000 t1700030000).sys.sunset.val : ℚ) - 7200 then
        "afternoon"
      else if ((payloadAt t1700000000 t1700030000).sys.sunset.val : ℚ) - 7200 ≤ (1700010000 : ℚ) ∧
          (1700010000 : ℚ) < ((payloadAt t1700000000 t1700030000).sys.sunset.val : ℚ) then
        "evening"
      else "night") = "morning" := by
    norm_num [payloadAt, t1700000000, t1700003600, t1700030000]
  rw [hm] at ht
  have hs : determineTimeOfDay 1700010000 (payloadAt t1700000000 t1700030000)
      (setWeatherData (payloadAt t1700000000 t1700030000) initialState) =
      { weatherData := some (payloadAt t1700000000 t1700030000)
        city := "Pune"
        searchCity := ""
        timeOfDay := "morning" } := by
    generalize determineTimeOfDay 1700010000 (payloadAt t1700000000 t1700030000)
      (setWeatherData (payloadAt t1700000000 t1700030000) initialState) = s at ht hf
    obtain ⟨w, c, d, t⟩ := s
    obtain ⟨h1, h2, h3⟩ := hf
    simp only [setWeatherData, initialState] at h1 h2 h3 ht
    subst h1 h2 h3 ht
    rfl
  have hmount : mount =
      { state := initialState, cityDeps := some "Pune", weatherRequests := ["Pune"],
        geoRequests := 1, console := [] } := by
    decide
  simp only [loadedPune, step, fetchWeather, hmount, hs]
  rfl

/-- After a commit the recorded dependency is the current city. -/
theorem commitEffects_settled (r : Runtime) :
    (commitEffects r).cityDeps = some (commitEffects r).state.city := by
  unfold commitEffects
  split_ifs with h
  · exact h
  · rfl

/-- Every run from a settled component ends settled. -/
theorem run_settled (events : List Event) (r : Runtime)
    (h : r.cityDeps = some r.state.city) :
    (run events r).cityDeps = some (run events r).state.city := by
  induction events generalizing r with
  | nil => exact h
  | cons e es ih => exact ih (step r e) (commitEffects_settled _)

/-- A commit leaves the state cells alone. -/
theorem commitEffects_state (r : Runtime) : (commitEffects r).state = r.state := by
  unfold commitEffects
  split_ifs <;> rfl

/-- The requests after a commit: one more, for the current city, when the dependency
changed. -/
theorem commitEffects_weatherRequests (r : Runtime) :
    (commitEffects r).weatherRequests =
      if r.cityDeps = some r.state.city then r.weatherRequests
      else r.weatherRequests ++ [r.state.city] := by
  unfold commitEffects
  split_ifs <;> rfl

/-! ## The classifier -/

/-- Claim C1.  For every sunrise and sunset in whole UNIX seconds (the payload) and
every clock value, fractional or not, the bucket that `determineTimeOfDay` writes is the
one chosen by the ordered tests of the specification: morning, else afternoon, else
evening, else night, with no assumption on how sunrise and sunset relate. -/
theorem determineTimeOfDay_eq_bucketBySpec (now : ℚ) (data : WeatherData)
    (s : WidgetState) :
    (determineTimeOfDay now data s).timeOfDay =
      bucketBySpec (data.sys.sunrise.val : ℚ) (data.sys.sunset.val : ℚ) now := by
  rw [determineTimeOfDay_timeOfDay]
  rfl

/-- Claim C2, refuted as stated.  With sunrise 1700000000 and sunset 1700003600 (a day
of one hour, sunrise before sunset) the clock value `sunrise + 4h` is classified night,
not afternoon, and the clock value `sunset` is classified morning, not night. -/
theorem boundaries_short_day :
    (1700000000 : ℚ) < 1700003600 ∧
    (determineTimeOfDay (1700000000 + 14400) (payloadAt t1700000000 t1700003600)
        initialState).timeOfDay = "night" ∧
    (determineTimeOfDay 1700003600 (payloadAt t1700000000 t1700003600)
        initialState).timeOfDay = "morning" := by
  refine ⟨by norm_num, ?_, ?_⟩ <;>
    rw [determineTimeOfDay_timeOfDay] <;>
    norm_num [payloadAt, t1700000000, t1700003600, t1700030000]

/-- Claim C2, amended.  When the day is longer than six hours
(`sunrise + 21600 < sunset`), the classifier writes morning at `now = sunrise`,
afternoon at `now = sunrise + 4h`, evening at `now = sunset - 2h`, night at
`now = sunset` and evening at `now = sunset - 1`. -/
theorem boundaries_long_day (data : WeatherData) (s : WidgetState)
    (h : (data.sys.sunrise.val : ℚ) + 21600 < (data.sys.sunset.val : ℚ)) :
    (determineTimeOfDay (data.sys.sunrise.val : ℚ) data s).timeOfDay = "morning" ∧
    (determineTimeOfDay ((data.sys.sunrise.val : ℚ) + 14400) data s).timeOfDay =
      "afternoon" ∧
    (determineTimeOfDay ((data.sys.sunset.val : ℚ) - 7200) data s).timeOfDay = "evening" ∧
    (determineTimeOfDay (data.sys.sunset.val : ℚ) data s).timeOfDay = "night" ∧
    (determineTimeOfDay ((data.sys.sunset.val : ℚ) - 1) data s).timeOfDay = "evening" := by
  simp only [determineTimeOfDay_timeOfDay]
  refine ⟨?_, ?_, ?_, ?_, ?_⟩
  · rw [if_pos ⟨le_refl _, by linarith⟩]
  · rw [if_neg (by rintro ⟨-, h2⟩; linarith), if_pos ⟨le_refl _, by linarith⟩]
  · rw [if_neg (by rintro ⟨-, h2⟩; linarith), if_neg (by rintro ⟨-, h2⟩; linarith),
      if_pos ⟨le_refl _, by linarith⟩]
  · rw [if_neg (by rintro ⟨-, h2⟩; linarith), if_neg (by rintro ⟨-, h2⟩; linarith),
      if_neg (by rintro ⟨-, h2⟩; linarith)]
  · rw [if_neg (by rintro ⟨-, h2⟩; linarith), if_neg (by rintro ⟨-, h2⟩; linarith),
      if_pos ⟨by linarith, by linarith⟩]

/-- Witness for `boundaries_long_day`: sunrise 1700000000, sunset 1700030000. -/
theorem boundaries_long_day_witness :
    ((payloadAt t1700000000 t1700030000).sys.sunrise.val : ℚ) + 21600 <
      ((payloadAt t1700000000 t1700030000).sys.sunset.val : ℚ) ∧
    (determineTimeOfDay 1700000000 (payloadAt t1700000000 t1700030000)
        initialState).timeOfDay = "morning" ∧
    (determineTimeOfDay (1700000000 + 14400) (payloadAt t1700000000 t1700030000)
        initialState).timeOfDay = "afternoon" ∧
    (determineTimeOfDay (1700030000 - 7200) (payloadAt t1700000000 t1700030000)
        initialState).timeOfDay = "evening" ∧
    (determineTimeOfDay 1700030000 (payloadAt t1700000000 t1700030000)
        initialState).timeOfDay = "night" ∧
    (determineTimeOfDay (1700030000 - 1) (payloadAt t1700000000 t1700030000)
        initialState).timeOfDay = "evening" :=
  ⟨by norm_num [payloadAt, t1700000000, t1700003600, t1700030000],
    boundaries_long_day (payloadAt t1700000000 t1700030000) initialState
      (by norm_num [payloadAt, t1700000000, t1700003600, t1700030000])⟩

/-- Claim C3, refuted as stated.  With sunrise 1700000000 and sunset 1700003600
(sunrise before sunset) the clock value 1700003600, which is at sunset, is classified
morning, and the clock value 1699999000, which is before sunrise, is classified
evening: neither is night. -/
theorem night_short_day :
    (1700000000 : ℚ) < 1700003600 ∧
    (1700003600 : ℚ) ≥ 1700003600 ∧
    (determineTimeOfDay 1700003600 (payloadAt t1700000000 t1700003600)
        initialState).timeOfDay = "morning" ∧
    (1699999000 : ℚ) < 1700000000 ∧
    (determineTimeOfDay 1699999000 (payloadAt t1700000000 t1700003600)
        initialState).timeOfDay = "evening" := by
  refine ⟨by norm_num, by norm_num, ?_, by norm_num, ?_⟩ <;>
    rw [determineTimeOfDay_timeOfDay] <;>
    norm_num [payloadAt, t1700000000, t1700003600, t1700030000]

/-- Claim C3, amended.  When the day lasts at least four hours
(`sunrise + 14400 <= sunset`), the classifier writes night exactly when the clock is
before sunrise or at or after sunset. -/
theorem night_iff_outside_day (now : ℚ) (data : WeatherData) (s : WidgetState)
    (h : (data.sys.sunrise.val : ℚ) + 14400 ≤ (data.sys.sunset.val : ℚ)) :
    (determineTimeOfDay now data s).timeOfDay = "night" ↔
      (now < (data.sys.sunrise.val : ℚ) ∨ now ≥ (data.sys.sunset.val : ℚ)) := by
  rw [determineTimeOfDay_timeOfDay]
  constructor
  · intro hn
    by_contra hc
    push_neg at hc
    obtain ⟨h1, h2⟩ := hc
    split_ifs at hn with a b c
    · exact absurd hn (by decide)
    · exact absurd hn (by decide)
    · exact absurd hn (by decide)
    · push_neg at a b c
      have h3 := a h1
      by_cases hb : (data.sys.sunrise.val : ℚ) + 14400 ≤ now
      · have h4 := b hb
        have h5 := c h4
        linarith
      · linarith
  · intro ho
    rw [if_neg, if_neg, if_neg]
    · rintro ⟨h1, h2⟩
      rcases ho with ho | ho <;> linarith
    · rintro ⟨h1, h2⟩
      rcases ho with ho | ho <;> linarith
    · rintro ⟨h1, h2⟩
      rcases ho with ho | ho <;> linarith

/-- Witness for `night_iff_outside_day`: sunrise 1700000000, sunset 1700030000 and the
clock at sunset. -/
theorem night_iff_outside_day_witness :
    ((payloadAt t1700000000 t1700030000).sys.sunrise.val : ℚ) + 14400 ≤
      ((payloadAt t1700000000 t1700030000).sys.sunset.val : ℚ) ∧
    ((determineTimeOfDay 1700030000 (payloadAt t1700000000 t1700030000)
        initialState).timeOfDay = "night" ↔
      ((1700030000 : ℚ) < ((payloadAt t1700000000 t1700030000).sys.sunrise.val : ℚ) ∨
        (1700030000 : ℚ) ≥ ((payloadAt t1700000000 t1700030000).sys.sunset.val : ℚ))) :=
  ⟨by norm_num [payloadAt, t1700000000, t1700003600, t1700030000],
    night_iff_outside_day 1700030000 (payloadAt t1700000000 t1700030000) initialState
      (by norm_num [payloadAt, t1700000000, t1700003600, t1700030000])⟩

/-- Claim C4.  When `sunset - 2h < sunrise + 4h` (a day shorter than six hours), the
classifier writes afternoon for no clock value. -/
theorem short_day_never_afternoon (data : WeatherData) (s : WidgetState)
    (h : (data.sys.sunset.val : ℚ) - 7200 < (data.sys.sunrise.val : ℚ) + 14400) (now : ℚ) :
    (determineTimeOfDay now data s).timeOfDay ≠ "afternoon" := by
  rw [determineTimeOfDay_timeOfDay]
  split_ifs with a b c
  · decide
  · exact absurd (lt_of_le_of_lt b.1 b.2) (by linarith)
  · decide
  · decide

/-- Witness for `short_day_never_afternoon`: sunrise 1700000000, sunset 1700003600 and
the clock at `sunrise + 4h`. -/
theorem short_day_never_afternoon_witness :
    ((payloadAt t1700000000 t1700003600).sys.sunset.val : ℚ) - 7200 <
      ((payloadAt t1700000000 t1700003600).sys.sunrise.val : ℚ) + 14400 ∧
    (determineTimeOfDay (1700000000 + 14400) (payloadAt t1700000000 t1700003600)
        initialState).timeOfDay ≠ "afternoon" :=
  ⟨by norm_num [payloadAt, t1700000000, t1700003600, t1700030000],
    short_day_never_afternoon (payloadAt t1700000000 t1700003600) initialState
      (by norm_num [payloadAt, t1700000000, t1700003600, t1700030000]) (1700000000 + 14400)⟩

/-! ## The weather fetch -/

/-- Claim C5.  When a weather request succeeds with payload `p` while the clock reads
`now`, the new state holds `p` as its snapshot, the bucket of the specification table
on `(p.sys.sunrise, p.sys.sunset, now)`, and the city and the search draft it had
before; with sunrise 1700000000, sunset 1700030000 and the clock at 1700000000 the
bucket is morning. -/
theorem fetchWeather_success (r : Runtime) (p : WeatherData) (now : ℚ) :
    (fetchWeather (.ok p) now r).state =
      { weatherData := some p
        city := r.state.city
        searchCity := r.state.searchCity
        timeOfDay := bucketBySpec (p.sys.sunrise.val : ℚ) (p.sys.sunset.val : ℚ) now } ∧
    (fetchWeather (.ok { p with sys := { sunrise := t1700000000, sunset := t1700030000 } })
        1700000000 r).state.timeOfDay = "morning" := by
  constructor
  · have hf := determineTimeOfDay_frame now p (setWeatherData p r.state)
    have ht := determineTimeOfDay_timeOfDay now p (setWeatherData p r.state)
    simp only [fetchWeather]
    generalize determineTimeOfDay now p (setWeatherData p r.state) = s at hf ht
    obtain ⟨w, c, d, t⟩ := s
    obtain ⟨h1, h2, h3⟩ := hf
    simp only [setWeatherData] at h1 h2 h3 ht
    subst h1 h2 h3 ht
    rfl
  · simp only [fetchWeather]
    rw [determineTimeOfDay_timeOfDay]
    norm_num [t1700000000, t1700030000]

/-- Claim C6.  When a weather request is rejected, the four state cells after the
handler are the cells before it, and the render that follows shows the loading
placeholder exactly when no snapshot had been received. -/
theorem fetchWeather_failure (r : Runtime) (error : AxiosError) (now : ℚ)
    (formattedDate : String) :
    (fetchWeather (.error error) now r).state = r.state ∧
    (render formattedDate (fetchWeather (.error error) now r).state = .ok View.loading ↔
      r.state.weatherData = none) := by
  refine ⟨rfl, ?_⟩
  show render formattedDate r.state = .ok View.loading ↔ r.state.weatherData = none
  unfold render
  cases hw : r.state.weatherData with
  | none => simp
  | some d =>
    cases hc : d.weather with
    | nil => simp [hc]
    | cons w ws => simp [hc]

/-! ## The geolocation lookup -/

/-- Claim C7, refuted as stated.  After the weather of the default city has arrived and
the user has searched for Tokyo, the active city is Tokyo; a geolocation response
without a city that arrives then sets it to Pune. -/
theorem location_without_city_overwrites_search :
    (searchFor "Tokyo" loadedPune).state.city = "Tokyo" ∧
    (fetchInitialCity (.ok { city := none }) (searchFor "Tokyo" loadedPune)).state.city =
      "Pune" := by
  rw [loadedPune_eq]
  decide

/-- Claim C7, amended.  A failed geolocation call leaves the four state cells, the
active city among them, as they were, for every prior state.  A response whose city is
absent or empty sets the active city to the default Pune and leaves the other cells: the
active city is unchanged when it was Pune and overwritten otherwise. -/
theorem fetchInitialCity_no_city (r : Runtime) (error : AxiosError) :
    (fetchInitialCity (.error error) r).state = r.state ∧
    (fetchInitialCity (.ok { city := none }) r).state = { r.state with city := "Pune" } ∧
    (fetchInitialCity (.ok { city := some "" }) r).state =
      { r.state with city := "Pune" } :=
  ⟨rfl, rfl, rfl⟩

/-! ## The search form -/

/-- Claim C8, refuted as stated.  From the loaded component, whose only request so far
is the one for Pune, searching for Tokyo twice in a row leaves two requests in all, Pune
and Tokyo: the first search issued one fetch and the second none. -/
theorem same_city_twice_one_fetch :
    loadedPune.weatherRequests = ["Pune"] ∧
    (searchFor "Tokyo" loadedPune).weatherRequests = ["Pune", "Tokyo"] ∧
    (searchFor "Tokyo" (searchFor "Tokyo" loadedPune)).weatherRequests =
      ["Pune", "Tokyo"] := by
  rw [loadedPune_eq]
  decide

/-- Claim C8, amended.  In every state reached from the mounted component, searching
twice in a row for the same text with a non-blank trimmed form issues at most one
weather fetch: the first search issues one, for the trimmed text, when that differs
from the active city, and none otherwise; the second search issues none. -/
theorem same_city_twice (events : List Event) (text : String) (h : jsTrim text ≠ "") :
    (searchFor text (run events mount)).weatherRequests =
      (if (run events mount).state.city = jsTrim text then
        (run events mount).weatherRequests
      else (run events mount).weatherRequests ++ [jsTrim text]) ∧
    (searchFor text (searchFor text (run events mount))).weatherRequests =
      (searchFor text (run events mount)).weatherRequests := by
  have hset : ∀ r : Runtime, r.cityDeps = some r.state.city →
      (searchFor text r).weatherRequests =
        (if r.state.city = jsTrim text then r.weatherRequests
         else r.weatherRequests ++ [jsTrim text]) ∧
      (searchFor text r).state.city = jsTrim text ∧
      (searchFor text r).cityDeps = some (searchFor text r).state.city := by
    intro r hr
    have h1 : step r (Event.change text) =
        { r with state := setSearchCity text r.state } := by
      simp only [step, commitEffects, setSearchCity, hr, if_true]
    have h2 : handleSearch (setSearchCity text r.state) =
        { r.state with city := jsTrim text, searchCity := "" } := by
      simp only [handleSearch, setSearchCity, setCity, h, ne_eq, not_false_eq_true, if_true]
    have h3 : searchFor text r =
        commitEffects
          { r with state := { r.state with city := jsTrim text, searchCity := "" } } := by
      show step (step r (Event.change text)) Event.submit = _
      rw [h1]
      show commitEffects
        { r with state := handleSearch (setSearchCity text r.state) } = _
      rw [h2]
    refine ⟨?_, ?_, commitEffects_settled _⟩
    · rw [h3, commitEffects_weatherRequests]
      simp only [hr, Option.some.injEq]
    · rw [h3, commitEffects_state]
  have h0 : (run events mount).cityDeps = some (run events mount).state.city :=
    run_settled events mount (by decide)
  obtain ⟨a1, a2, a3⟩ := hset (run events mount) h0
  obtain ⟨b1, -, -⟩ := hset (searchFor text (run events mount)) a3
  refine ⟨a1, ?_⟩
  rw [b1, if_pos a2]

/-- Witness for `same_city_twice`: the weather of Pune arrives, then Tokyo is searched
twice. -/
theorem same_city_twice_witness :
    jsTrim "Tokyo" ≠ "" ∧
    ((searchFor "Tokyo"
        (run [Event.weatherSettled (.ok (payloadAt t1700000000 t1700030000)) 1700010000]
          mount)).weatherRequests =
      (if (run [Event.weatherSettled (.ok (payloadAt t1700000000 t1700030000)) 1700010000]
          mount).state.city = jsTrim "Tokyo" then
        (run [Event.weatherSettled (.ok (payloadAt t1700000000 t1700030000)) 1700010000]
          mount).weatherRequests
      else
        (run [Event.weatherSettled (.ok (payloadAt t1700000000 t1700030000)) 1700010000]
          mount).weatherRequests ++ [jsTrim "Tokyo"]) ∧
    (searchFor "Tokyo" (searchFor "Tokyo"
        (run [Event.weatherSettled (.ok (payloadAt t1700000000 t1700030000)) 1700010000]
          mount))).weatherRequests =
      (searchFor "Tokyo"
        (run [Event.weatherSettled (.ok (payloadAt t1700000000 t1700030000)) 1700010000]
          mount)).weatherRequests) :=
  ⟨by decide,
    same_city_twice
      [Event.weatherSettled (.ok (payloadAt t1700000000 t1700030000)) 1700010000] "Tokyo"
      (by decide)⟩

/-- Claim C9, refuted as stated.  With the card on screen, typing three spaces and
submitting leaves the three spaces in the search draft. -/
theorem blank_draft_is_kept :
    (searchFor "   " loadedPune).state.searchCity = "   " ∧
    (searchFor "   " loadedPune).state.searchCity ≠ "" := by
  rw [loadedPune_eq]
  decide

/-- Claim C9, amended.  After `handleSearch` the search draft is the empty string when
its trimmed form is non-empty, and is the draft as it was when its trimmed form is
empty (an empty draft stays empty, a whitespace-only draft keeps its whitespace). -/
theorem handleSearch_searchCity (s : WidgetState) :
    (handleSearch s).searchCity =
      if jsTrim s.searchCity = "" then s.searchCity else "" := by
  unfold handleSearch
  by_cases h : jsTrim s.searchCity = ""
  · simp [h]
  · simp [h, setSearchCity]

/-! ## The active city is never empty -/

/-- Claim C10.  In every state reached from the mounted component by any sequence of
typing, search submissions, geolocation results (rejection, no city, empty city, a
city) and weather results, the active city is a non-empty string and every weather
request has been issued with a non-empty city name. -/
theorem city_never_empty (events : List Event) :
    (run events mount).state.city ≠ "" ∧
    ∀ c ∈ (run events mount).weatherRequests, c ≠ "" := by
  have hstep : ∀ (r : Runtime) (e : Event),
      (r.state.city ≠ "" ∧ ∀ c ∈ r.weatherRequests, c ≠ "") →
      ((step r e).state.city ≠ "" ∧ ∀ c ∈ (step r e).weatherRequests, c ≠ "") := by
    intro r e ⟨hc, hq⟩
    have key : ∀ r2 : Runtime, r2.state.city ≠ "" → r2.weatherRequests = r.weatherRequests →
        ((commitEffects r2).state.city ≠ "" ∧
          ∀ c ∈ (commitEffects r2).weatherRequests, c ≠ "") := by
      intro r2 h2 hw
      refine ⟨by rw [commitEffects_state]; exact h2, ?_⟩
      rw [commitEffects_weatherRequests, hw]
      split_ifs
      · exact hq
      · intro c hmem
        rcases List.mem_append.mp hmem with hm | hm
        · exact hq c hm
        · rw [List.mem_singleton.mp hm]; exact h2
    cases e with
    | change value => exact key _ hc rfl
    | submit =>
      refine key _ ?_ rfl
      show (handleSearch r.state).city ≠ ""
      unfold handleSearch
      split_ifs with ht
      · exact ht
      · exact hc
    | locationSettled locationResponse =>
      cases locationResponse with
      | error err => exact key _ hc rfl
      | ok data =>
        refine key _ ?_ rfl
        show orDefault data.city "Pune" ≠ ""
        unfold orDefault
        cases data.city with
        | none => decide
        | some v =>
          show (if v ≠ "" then v else "Pune") ≠ ""
          split_ifs with hv
          · exact hv
          · decide
    | weatherSettled response currentTime =>
      cases response with
      | error err => exact key _ hc rfl
      | ok data =>
        refine key _ ?_ rfl
        show (determineTimeOfDay currentTime data (setWeatherData data r.state)).city ≠ ""
        rw [(determineTimeOfDay_frame currentTime data _).2.1]
        exact hc
  have hrun : ∀ (es : List Event) (r : Runtime),
      (r.state.city ≠ "" ∧ ∀ c ∈ r.weatherRequests, c ≠ "") →
      ((run es r).state.city ≠ "" ∧ ∀ c ∈ (run es r).weatherRequests, c ≠ "") := by
    intro es
    induction es with
    | nil => intro r hr; exact hr
    | cons e es ih => intro r hr; exact ih (step r e) (hstep r e hr)
  exact hrun events mount (by decide)

end WeatherCard
